import Mathlib

/-!
Verification development for the git_sync repository (src/main.go).

The program mirrors a source git repository to a destination repository
through a local bare "shadow" clone.  We give a shallow embedding of the
program: pure helpers (the SHA-256 based shadow-path derivation) are
translated as Lean functions, and the effectful parts (filesystem, key
files, network fetch/push through go-git) are modelled by an explicit
`World` state threaded through the functions, together with a trace of
observable events (directory creation with its permission argument, key
reads, network fetches and pushes).  Nil Go pointers are modelled by
`Option`, and a nil-pointer dereference by the dedicated outcome
`Res.panic`.
-/

set_option maxRecDepth 100000

namespace GitSync

/-! ## SHA-256 (crypto/sha256), byte-level, words as `Nat` mod 2^32 -/

def w32 (n : Nat) : Nat := n % 4294967296

def rotr (n x : Nat) : Nat := w32 ((x >>> n) ||| (x <<< (32 - n)))

def bnot32 (x : Nat) : Nat := x ^^^ 4294967295

def chF (x y z : Nat) : Nat := (x &&& y) ^^^ (bnot32 x &&& z)

def majF (x y z : Nat) : Nat := (x &&& y) ^^^ (x &&& z) ^^^ (y &&& z)

def bigSigma0 (x : Nat) : Nat := rotr 2 x ^^^ rotr 13 x ^^^ rotr 22 x

def bigSigma1 (x : Nat) : Nat := rotr 6 x ^^^ rotr 11 x ^^^ rotr 25 x

def smallSigma0 (x : Nat) : Nat := rotr 7 x ^^^ rotr 18 x ^^^ (x >>> 3)

def smallSigma1 (x : Nat) : Nat := rotr 17 x ^^^ rotr 19 x ^^^ (x >>> 10)

/-- Round constants of SHA-256 (FIPS 180-4 section 4.2.2), written in decimal. -/
def sha256K : List Nat :=
  [1116352408, 1899447441, 3049323471, 3921009573, 961987163,
   1508970993, 2453635748, 2870763221, 3624381080, 310598401,
   607225278, 1426881987, 1925078388, 2162078206, 2614888103,
   3248222580, 3835390401, 4022224774, 264347078, 604807628,
   770255983, 1249150122, 1555081692, 1996064986, 2554220882,
   2821834349, 2952996808, 3210313671, 3336571891, 3584528711,
   113926993, 338241895, 666307205, 773529912, 1294757372,
   1396182291, 1695183700, 1986661051, 2177026350, 2456956037,
   2730485921, 2820302411, 3259730800, 3345764771, 3516065817,
   3600352804, 4094571909, 275423344, 430227734, 506948616,
   659060556, 883997877, 958139571, 1322822218, 1537002063,
   1747873779, 1955562222, 2024104815, 2227730452, 2361852424,
   2428436474, 2756734187, 3204031479, 3329325298]

/-- Initial hash state of SHA-256 (FIPS 180-4 section 5.3.3), written in decimal. -/
def sha256InitH : List Nat :=
  [1779033703, 3144134277, 1013904242, 2773480762,
   1359893119, 2600822924, 528734635, 1541459225]

/-- UTF-8 encoding of a single character as a list of byte values. -/
def utf8Bytes (c : Char) : List Nat :=
  let n := c.toNat
  if n < 0x80 then [n]
  else if n < 0x800 then [0xC0 ||| (n >>> 6), 0x80 ||| (n &&& 0x3F)]
  else if n < 0x10000 then
    [0xE0 ||| (n >>> 12), 0x80 ||| ((n >>> 6) &&& 0x3F), 0x80 ||| (n &&& 0x3F)]
  else
    [0xF0 ||| (n >>> 18), 0x80 ||| ((n >>> 12) &&& 0x3F),
     0x80 ||| ((n >>> 6) &&& 0x3F), 0x80 ||| (n &&& 0x3F)]

/-- UTF-8 bytes of a string, matching Go's `[]byte(s)` conversion. -/
def strBytes (s : String) : List Nat := (s.data.map utf8Bytes).flatten

/-- Big-endian byte decomposition of `n` into `k` bytes, most significant first. -/
def beBytes : Nat → Nat → List Nat
  | 0, _ => []
  | k + 1, n => beBytes k (n >>> 8) ++ [n &&& 0xFF]

/-- SHA-256 message padding: append 0x80, zeros to 56 mod 64, then the 64-bit bit length. -/
def padMessage (msg : List Nat) : List Nat :=
  let len := msg.length
  let padZeros := (119 - len % 64) % 64
  msg ++ [0x80] ++ List.replicate padZeros 0 ++ beBytes 8 (8 * len)

/-- Group bytes into big-endian 32-bit words. -/
def bytesToWords : List Nat → List Nat
  | a :: b :: c :: d :: rest =>
      ((((a <<< 8) ||| b) <<< 8 ||| c) <<< 8 ||| d) :: bytesToWords rest
  | _ => []

/-- Split a byte list into 64-byte chunks; the fuel is an upper bound on the chunk count. -/
def chunks64Aux : Nat → List Nat → List (List Nat)
  | 0, _ => []
  | _, [] => []
  | fuel + 1, l => l.take 64 :: chunks64Aux fuel (l.drop 64)

def chunks64 (l : List Nat) : List (List Nat) := chunks64Aux l.length l

/-- Extend the 16-word block to the 64-word message schedule. -/
def buildSchedule (w16 : List Nat) : Array Nat :=
  (List.range 48).foldl
    (fun ws i =>
      let t := i + 16
      ws.push (w32 (smallSigma1 (ws.getD (t - 2) 0) + ws.getD (t - 7) 0 +
                    smallSigma0 (ws.getD (t - 15) 0) + ws.getD (t - 16) 0)))
    w16.toArray

/-- One round of the SHA-256 compression function on the eight working words. -/
def compressStep (k wt : Nat) (hs : List Nat) : List Nat :=
  match hs with
  | [a, b, c, d, e, f, g, hh] =>
    let t1 := w32 (hh + bigSigma1 e + chF e f g + k + wt)
    let t2 := w32 (bigSigma0 a + majF a b c)
    [w32 (t1 + t2), a, b, c, w32 (d + t1), e, f, g]
  | other => other

/-- Compress one 64-byte block into the running hash state. -/
def compressBlock (h0 : List Nat) (block : List Nat) : List Nat :=
  let ws := buildSchedule (bytesToWords block)
  let hEnd := (List.zip sha256K ws.toList).foldl (fun hs kw => compressStep kw.1 kw.2 hs) h0
  List.zipWith (fun x y => w32 (x + y)) h0 hEnd

/-- SHA-256 digest (32 bytes) of a byte sequence. -/
def sha256Bytes (msg : List Nat) : List Nat :=
  (((chunks64 (padMessage msg)).foldl compressBlock sha256InitH).map (beBytes 4)).flatten

/-- Lowercase hexadecimal digit, as produced by Go's encoding/hex. -/
def hexDigit (n : Nat) : Char :=
  if n < 10 then Char.ofNat (48 + n) else Char.ofNat (87 + n)

def hexByte (b : Nat) : List Char := [hexDigit (b / 16), hexDigit (b % 16)]

/-- Lowercase hex encoding of a byte list (Go's hex.EncodeToString). -/
def hexEncodeToString (bs : List Nat) : String := String.mk ((bs.map hexByte).flatten)

/-- Hex-encoded SHA-256 of a string, as computed in repositoryShadowCreateDir. -/
def sha256Hex (s : String) : String := hexEncodeToString (sha256Bytes (strBytes s))

/-! ## Data model (src/main.go lines 34-51) -/

structure RepositoryAccess where
  repoName : String
  repoUrl : String
  repoPemFileName : String
  repoPemFilePassword : String
  repoSkipHostKeyValidation : Bool
deriving Repr, DecidableEq

structure RepositorySyncOption where
  sourceName : String
  destinationName : String
deriving Repr, DecidableEq

structure RepositoriesSyncConfiguration where
  shadowsLocationBasePath : String
  repositories : List RepositoryAccess
  syncOptions : List RepositorySyncOption
deriving Repr

/-- Linear scan of the configured repositories, as the loop in getRepositoryAccess
(main.go lines 53-60).  The Go function returns a nil pointer on a miss, modelled
as `none`. -/
def getRepositoryAccess (rsc : RepositoriesSyncConfiguration) (repoName : String) :
    Option RepositoryAccess :=
  go rsc.repositories
where
  go : List RepositoryAccess → Option RepositoryAccess
    | [] => none
    | e :: rest => if e.repoName = repoName then some e else go rest

/-! ## External collaborators: go-git repositories, SSH keys, filesystem, network

The world holds the on-disk shadow repositories, the readable key files and
oracles giving the outcome of each network fetch/push by remote URL.  A
`DiskEntry.corrupt` entry makes `git.PlainOpen` fail with an error other than
`ErrRepositoryNotExists`. -/

structure RemoteCfg where
  name : String
  urls : List String
  fetchSpecs : List String
deriving Repr, DecidableEq

structure DiskRepo where
  bare : Bool
  remotes : List RemoteCfg
  refs : List (String × Nat)
deriving Repr, DecidableEq

inductive DiskEntry where
  | repo (d : DiskRepo)
  | corrupt
deriving Repr, DecidableEq

/-- Outcome of a network fetch from a given remote URL. -/
inductive FetchRes where
  | updated (refs : List (String × Nat))
  | alreadyUpToDate
  | failure (msg : String)
deriving Repr, DecidableEq

/-- Outcome of a network push to a given remote URL. -/
inductive PushRes where
  | done
  | alreadyUpToDate
  | failure (msg : String)
deriving Repr, DecidableEq

structure World where
  disk : List (String × DiskEntry)
  keyfiles : String → String → Option String
  mkdirOk : String → Bool
  fetchNet : String → FetchRes
  pushNet : String → PushRes

/-- Observable side effects of a run. -/
inductive Event where
  | mkdirAll (path : String) (perm : Nat)
  | readKey (pemFile : String)
  | fetch (url : String)
  | push (url : String)
deriving Repr, DecidableEq

/-- Errors of the embedded program.  `alreadyUpToDate` is go-git's
`NoErrAlreadyUpToDate` sentinel, returned through the error channel of
fetch/push and filtered by the callers. -/
inductive GitError where
  | repositoryNotExists
  | repositoryAlreadyExists
  | remoteExists
  | remoteNotFound
  | openFailure (path : String)
  | transport (msg : String)
  | authError (pemFile : String)
  | ioError (msg : String)
  | alreadyUpToDate
deriving Repr, DecidableEq

/-- Result of a Go call: a value, an error, or a nil-pointer-dereference panic. -/
inductive Res (α : Type) where
  | ok (a : α)
  | err (e : GitError)
  | panic
deriving Repr, DecidableEq

/-- Handle to an opened repository; go-git operations go through the storage
rooted at this path. -/
structure GitRepository where
  path : String
deriving Repr, DecidableEq

/-- An in-memory go-git Remote: it carries its own copy of the remote
configuration, loaded from the repository storage when the remote was looked
up; mutating this copy does not write back to the repository. -/
structure Remote where
  repoPath : String
  cfg : RemoteCfg
deriving Repr, DecidableEq

def defaultRemoteName : String := "origin"

def mirrorRefSpec : String := "+refs/*:refs/*"

def lookupEntry : List (String × DiskEntry) → String → Option DiskEntry
  | [], _ => none
  | (q, e) :: rest, p => if q = p then some e else lookupEntry rest p

def diskLookup (w : World) (p : String) : Option DiskEntry := lookupEntry w.disk p

def diskSet (w : World) (p : String) (e : DiskEntry) : World :=
  { w with disk := (p, e) :: w.disk }

def findRemote : List RemoteCfg → String → Option RemoteCfg
  | [], _ => none
  | c :: rest, n => if c.name = n then some c else findRemote rest n

/-- Model of git.PlainOpen: distinguishes a missing repository
(`ErrRepositoryNotExists`) from any other open failure. -/
def plainOpen (w : World) (p : String) : Res GitRepository :=
  match diskLookup w p with
  | none => Res.err GitError.repositoryNotExists
  | some DiskEntry.corrupt => Res.err (GitError.openFailure p)
  | some (DiskEntry.repo _) => Res.ok { path := p }

/-- Model of git.PlainInit with bare=true: creates an empty bare repository,
failing if something already exists at the path. -/
def plainInit (w : World) (p : String) : Res GitRepository × World :=
  match diskLookup w p with
  | some _ => (Res.err GitError.repositoryAlreadyExists, w)
  | none => (Res.ok { path := p }, diskSet w p (DiskEntry.repo { bare := true, remotes := [], refs := [] }))

/-- Model of Repository.CreateRemote: stores the remote configuration in the
repository, failing if a remote of that name already exists. -/
def createRemote (w : World) (r : GitRepository) (cfg : RemoteCfg) : Res Remote × World :=
  match diskLookup w r.path with
  | some (DiskEntry.repo d) =>
    match findRemote d.remotes cfg.name with
    | some _ => (Res.err GitError.remoteExists, w)
    | none =>
      (Res.ok { repoPath := r.path, cfg := cfg },
       diskSet w r.path (DiskEntry.repo { d with remotes := d.remotes ++ [cfg] }))
  | _ => (Res.err (GitError.openFailure r.path), w)

/-- Model of Repository.Remote: loads the named remote configuration from the
repository storage into a fresh in-memory Remote. -/
def repoRemote (w : World) (r : GitRepository) (name : String) : Res Remote :=
  match diskLookup w r.path with
  | some (DiskEntry.repo d) =>
    match findRemote d.remotes name with
    | some cfg => Res.ok { repoPath := r.path, cfg := cfg }
    | none => Res.err GitError.remoteNotFound
  | _ => Res.err (GitError.openFailure r.path)

/-- Model of Remote.FetchContext with the catch-all mirroring refspec: contacts
the remote's first URL; on new data the repository's refs become the fetched
refs, on `NoErrAlreadyUpToDate` nothing changes and the sentinel is returned
through the error channel, and transport failures are returned as errors. -/
def remoteFetch (w : World) (rem : Remote) : Res Unit × World × List Event :=
  let url := rem.cfg.urls.headD ""
  match w.fetchNet url with
  | FetchRes.failure m => (Res.err (GitError.transport m), w, [Event.fetch url])
  | FetchRes.alreadyUpToDate => (Res.err GitError.alreadyUpToDate, w, [Event.fetch url])
  | FetchRes.updated rs =>
    match diskLookup w rem.repoPath with
    | some (DiskEntry.repo d) =>
      (Res.ok (), diskSet w rem.repoPath (DiskEntry.repo { d with refs := rs }), [Event.fetch url])
    | _ => (Res.err (GitError.openFailure rem.repoPath), w, [Event.fetch url])

/-- Model of Repository.FetchContext with a remote name: looks the remote up in
the stored configuration, then fetches through it. -/
def repoFetch (w : World) (r : GitRepository) (remoteName : String) :
    Res Unit × World × List Event :=
  match diskLookup w r.path with
  | some (DiskEntry.repo d) =>
    match findRemote d.remotes remoteName with
    | some cfg => remoteFetch w { repoPath := r.path, cfg := cfg }
    | none => (Res.err GitError.remoteNotFound, w, [])
  | _ => (Res.err (GitError.openFailure r.path), w, [])

/-- Model of Remote.PushContext with the mirroring refspec: contacts the first
URL of the in-memory remote configuration.  The local repository is not
modified. -/
def remotePush (w : World) (rem : Remote) : Res Unit × World × List Event :=
  let url := rem.cfg.urls.headD ""
  match w.pushNet url with
  | PushRes.failure m => (Res.err (GitError.transport m), w, [Event.push url])
  | PushRes.alreadyUpToDate => (Res.err GitError.alreadyUpToDate, w, [Event.push url])
  | PushRes.done => (Res.ok (), w, [Event.push url])

/-! ## The program functions (src/main.go) -/

/-- Resolved SSH credential, as returned by repositorySshKeyRead. -/
structure PublicKeys where
  user : String
  keyMaterial : String
  insecureHostKey : Bool
deriving Repr, DecidableEq

/-- Embedding of repositorySshKeyRead (main.go lines 101-112): reads the key
file, always authenticating as the fixed user "git"; a missing or undecryptable
key file is an error; the skip flag installs the insecure host-key callback. -/
def repositorySshKeyRead (w : World) (sourceRepoPemFileName : String)
    (sourceRepoPemFilePassword : String) (sourceRepoSkipHostKeyValidation : Bool) :
    Res PublicKeys × List Event :=
  match w.keyfiles sourceRepoPemFileName sourceRepoPemFilePassword with
  | none => (Res.err (GitError.authError sourceRepoPemFileName), [Event.readKey sourceRepoPemFileName])
  | some material =>
    let sourceRepoPublicKey : PublicKeys :=
      { user := "git", keyMaterial := material, insecureHostKey := false }
    if sourceRepoSkipHostKeyValidation then
      (Res.ok { sourceRepoPublicKey with insecureHostKey := true },
       [Event.readKey sourceRepoPemFileName])
    else
      (Res.ok sourceRepoPublicKey, [Event.readKey sourceRepoPemFileName])

/-- Model of filepath.Join for a clean, non-empty base path. -/
def filepathJoin (a b : String) : String := a ++ "/" ++ b

/-- Embedding of repositoryShadowCreateDir (main.go lines 85-99): the shadow
path is the base path joined with the hex SHA-256 of the source URL, and the
directory is created with os.MkdirAll and the literal permission argument 644.
The hasher write never fails in Go, so no error path exists for it. -/
def repositoryShadowCreateDir (w : World) (sourceRepoUrl : String) (tmpPath : String) :
    Res String × World × List Event :=
  let sourceSha256sum := sha256Hex sourceRepoUrl
  let sourceClonePath := filepathJoin tmpPath sourceSha256sum
  if w.mkdirOk sourceClonePath then
    (Res.ok sourceClonePath, w, [Event.mkdirAll sourceClonePath 644])
  else
    (Res.err (GitError.ioError sourceClonePath), w, [Event.mkdirAll sourceClonePath 644])

/-- Derived shadow path, for stating properties. -/
def shadowPath (basePath sourceRepoUrl : String) : String :=
  filepathJoin basePath (sha256Hex sourceRepoUrl)

/-- Embedding of repositoryShadowCheckInit (main.go lines 114-123): opens the
shadow path; `ErrRepositoryNotExists` is mapped to a successful `none`, any
other open error is propagated, an open repository is returned as `some`. -/
def repositoryShadowCheckInit (w : World) (sourceClonePath : String) :
    Res (Option GitRepository) :=
  match plainOpen w sourceClonePath with
  | Res.err GitError.repositoryNotExists => Res.ok none
  | Res.err e => Res.err e
  | Res.panic => Res.panic
  | Res.ok r => Res.ok (some r)

/-- Embedding of repositoryShadowInit (main.go lines 125-151): init a bare
repository, create the default remote at the source URL with the catch-all
mirroring refspec, then fetch; `NoErrAlreadyUpToDate` is filtered to success. -/
def repositoryShadowInit (w : World) (sourceClonePath sourceRepoUrl : String)
    (_sourceRepoPublicKey : PublicKeys) : Res GitRepository × World × List Event :=
  match plainInit w sourceClonePath with
  | (Res.err e, w1) => (Res.err e, w1, [])
  | (Res.panic, w1) => (Res.panic, w1, [])
  | (Res.ok r, w1) =>
    match createRemote w1 r
        { name := defaultRemoteName, urls := [sourceRepoUrl], fetchSpecs := [mirrorRefSpec] } with
    | (Res.err e, w2) => (Res.err e, w2, [])
    | (Res.panic, w2) => (Res.panic, w2, [])
    | (Res.ok remoteSource, w2) =>
      match remoteFetch w2 remoteSource with
      | (Res.err GitError.alreadyUpToDate, w3, ev) => (Res.ok r, w3, ev)
      | (Res.err e, w3, ev) => (Res.err e, w3, ev)
      | (Res.panic, w3, ev) => (Res.panic, w3, ev)
      | (Res.ok _, w3, ev) => (Res.ok r, w3, ev)

/-- Embedding of repositoryShadowUpdate (main.go lines 153-169): re-open the
shadow (the passed-in handle is shadowed, exactly as in the source) and fetch
through the stored default remote; `NoErrAlreadyUpToDate` is filtered to
success. -/
def repositoryShadowUpdate (w : World) (_r : Option GitRepository)
    (sourceClonePath : String) (_sourceRepoPublicKey : PublicKeys) :
    Res GitRepository × World × List Event :=
  match plainOpen w sourceClonePath with
  | Res.err e => (Res.err e, w, [])
  | Res.panic => (Res.panic, w, [])
  | Res.ok r1 =>
    match repoFetch w r1 defaultRemoteName with
    | (Res.err GitError.alreadyUpToDate, w1, ev) => (Res.ok r1, w1, ev)
    | (Res.err e, w1, ev) => (Res.err e, w1, ev)
    | (Res.panic, w1, ev) => (Res.panic, w1, ev)
    | (Res.ok _, w1, ev) => (Res.ok r1, w1, ev)

/-- Embedding of repositoryShadowPushToNewOrigin (main.go lines 171-192): look
up the default remote — tolerating `ErrRemoteNotFound`, after which the nil
remote is dereferenced unconditionally (`remoteDestination.Config().URLs = ...`),
modelled as a panic; likewise a nil repository handle panics at `r.Remote`.
The URL list of the in-memory remote is replaced by the destination URL alone,
then the push runs; `NoErrAlreadyUpToDate` is filtered to success. -/
def repositoryShadowPushToNewOrigin (w : World) (r : Option GitRepository)
    (destinationRepoUrl : String) (_destinationRepoPublicKey : PublicKeys) :
    Res Unit × World × List Event :=
  match r with
  | none => (Res.panic, w, [])
  | some r0 =>
    match repoRemote w r0 defaultRemoteName with
    | Res.err GitError.remoteNotFound => (Res.panic, w, [])
    | Res.err e => (Res.err e, w, [])
    | Res.panic => (Res.panic, w, [])
    | Res.ok remoteDestination =>
      let remoteDestination :=
        { remoteDestination with cfg := { remoteDestination.cfg with urls := [destinationRepoUrl] } }
      match remotePush w remoteDestination with
      | (Res.err GitError.alreadyUpToDate, w1, ev) => (Res.ok (), w1, ev)
      | (Res.err e, w1, ev) => (Res.err e, w1, ev)
      | (Res.panic, w1, ev) => (Res.panic, w1, ev)
      | (Res.ok _, w1, ev) => (Res.ok (), w1, ev)

/-- The initialize-or-update decision of the orchestrator (main.go lines
212-221), the spec's ensureUpToDate: check the shadow, then Init when no
repository exists and Update otherwise. -/
def ensureUpToDate (w : World) (sourceClonePath sourceRepoUrl : String)
    (sourceRepoPublicKeys : PublicKeys) : Res GitRepository × World × List Event :=
  match repositoryShadowCheckInit w sourceClonePath with
  | Res.err e => (Res.err e, w, [])
  | Res.panic => (Res.panic, w, [])
  | Res.ok none => repositoryShadowInit w sourceClonePath sourceRepoUrl sourceRepoPublicKeys
  | Res.ok (some r) => repositoryShadowUpdate w (some r) sourceClonePath sourceRepoPublicKeys

/-- Embedding of doRepositoriesSync (main.go lines 194-238).  Both lookups are
performed first; the source descriptor is dereferenced at line 198 and the
destination descriptor at line 224, each without a nil check (a lookup miss
panics at that point).  The error of the Init/Update step (lines 217-221) is
never tested: the source immediately reassigns `err` at line 223, so a failed
step leaves a nil repository that is passed on to the push. -/
def doRepositoriesSync (w : World) (rsc : RepositoriesSyncConfiguration)
    (syncOption : RepositorySyncOption) : Res Unit × World × List Event :=
  let syncOptionSource := getRepositoryAccess rsc syncOption.sourceName
  let syncOptionDestination := getRepositoryAccess rsc syncOption.destinationName
  match syncOptionSource with
  | none => (Res.panic, w, [])
  | some src =>
    match repositoryShadowCreateDir w src.repoUrl rsc.shadowsLocationBasePath with
    | (Res.err e, w1, ev1) => (Res.err e, w1, ev1)
    | (Res.panic, w1, ev1) => (Res.panic, w1, ev1)
    | (Res.ok sourceClonePath, w1, ev1) =>
      match repositorySshKeyRead w1 src.repoPemFileName src.repoPemFilePassword
          src.repoSkipHostKeyValidation with
      | (Res.err e, evk) => (Res.err e, w1, ev1 ++ evk)
      | (Res.panic, evk) => (Res.panic, w1, ev1 ++ evk)
      | (Res.ok sourceRepoPublicKeys, evk) =>
        match repositoryShadowCheckInit w1 sourceClonePath with
        | Res.err e => (Res.err e, w1, ev1 ++ evk)
        | Res.panic => (Res.panic, w1, ev1 ++ evk)
        | Res.ok rOpt =>
          match (match rOpt with
                 | none => repositoryShadowInit w1 sourceClonePath src.repoUrl sourceRepoPublicKeys
                 | some r => repositoryShadowUpdate w1 (some r) sourceClonePath sourceRepoPublicKeys) with
          | (Res.panic, w2, ev2) => (Res.panic, w2, ev1 ++ evk ++ ev2)
          | (stepRes, w2, ev2) =>
            let rPassed : Option GitRepository :=
              match stepRes with
              | Res.ok r => some r
              | _ => none
            match syncOptionDestination with
            | none => (Res.panic, w2, ev1 ++ evk ++ ev2)
            | some dst =>
              match repositorySshKeyRead w2 dst.repoPemFileName dst.repoPemFilePassword
                  dst.repoSkipHostKeyValidation with
              | (Res.err e, evk2) => (Res.err e, w2, ev1 ++ evk ++ ev2 ++ evk2)
              | (Res.panic, evk2) => (Res.panic, w2, ev1 ++ evk ++ ev2 ++ evk2)
              | (Res.ok destinationRepoPublicKeys, evk2) =>
                match repositoryShadowPushToNewOrigin w2 rPassed dst.repoUrl
                    destinationRepoPublicKeys with
                | (Res.ok _, w3, ev3) => (Res.ok (), w3, ev1 ++ evk ++ ev2 ++ evk2 ++ ev3)
                | (Res.err e, w3, ev3) => (Res.err e, w3, ev1 ++ evk ++ ev2 ++ evk2 ++ ev3)
                | (Res.panic, w3, ev3) => (Res.panic, w3, ev1 ++ evk ++ ev2 ++ evk2 ++ ev3)

/-! ## Concrete scenarios used by counterexamples and witnesses -/

/-- Source repository descriptor of the concrete scenario. -/
def srcAccess : RepositoryAccess :=
  { repoName := "src", repoUrl := "us", repoPemFileName := "ks.pem",
    repoPemFilePassword := "", repoSkipHostKeyValidation := false }

/-- Destination repository descriptor of the concrete scenario. -/
def dstAccess : RepositoryAccess :=
  { repoName := "dst", repoUrl := "ud", repoPemFileName := "kd.pem",
    repoPemFilePassword := "", repoSkipHostKeyValidation := true }

/-- A well-formed configuration with one sync pair. -/
def cfgC : RepositoriesSyncConfiguration :=
  { shadowsLocationBasePath := "b", repositories := [srcAccess, dstAccess],
    syncOptions := [{ sourceName := "src", destinationName := "dst" }] }

def soC : RepositorySyncOption := { sourceName := "src", destinationName := "dst" }

def keyfilesC : String → String → Option String := fun f _p =>
  if f = "ks.pem" then some "KS" else if f = "kd.pem" then some "KD" else none

/-- World with an empty shadow base, reachable source and destination. -/
def wFresh : World :=
  { disk := [], keyfiles := keyfilesC, mkdirOk := fun _ => true,
    fetchNet := fun u =>
      if u = "us" then FetchRes.updated [("refs/heads/main", 1)] else FetchRes.failure "unknown",
    pushNet := fun u => if u = "ud" then PushRes.done else PushRes.failure "unknown" }

/-- World like wFresh, but every fetch fails with a transport error. -/
def wDown : World := { wFresh with fetchNet := fun _ => FetchRes.failure "down" }

/-- The derived shadow path of the concrete scenario. -/
def pathC : String := shadowPath "b" "us"

/-- A shadow repository on disk as this program leaves it after a sync of the
concrete scenario. -/
def repoC : DiskRepo :=
  { bare := true,
    remotes := [{ name := defaultRemoteName, urls := ["us"], fetchSpecs := [mirrorRefSpec] }],
    refs := [("refs/heads/main", 1)] }

/-- World in which the shadow already exists and both endpoints report the
already-up-to-date sentinel. -/
def wUp : World :=
  { disk := [(pathC, DiskEntry.repo repoC)], keyfiles := keyfilesC, mkdirOk := fun _ => true,
    fetchNet := fun _ => FetchRes.alreadyUpToDate, pushNet := fun _ => PushRes.alreadyUpToDate }

/-- The remote configuration installed by repositoryShadowInit. -/
def originCfg (u : String) : RemoteCfg :=
  { name := defaultRemoteName, urls := [u], fetchSpecs := [mirrorRefSpec] }

/-- Ref set stored in the shadow repository at a path, if one exists. -/
def shadowRefs (w : World) (p : String) : Option (List (String × Nat)) :=
  match diskLookup w p with
  | some (DiskEntry.repo d) => some d.refs
  | _ => none

/-- Remote bindings stored in the shadow repository at a path. -/
def shadowRemotes (w : World) (p : String) : Option (List RemoteCfg) :=
  match diskLookup w p with
  | some (DiskEntry.repo d) => some d.remotes
  | _ => none

/-- The oracles of the world (key files, network, filesystem permissions) are
untouched by a disk update. -/
def sameOracles (wA w : World) : Prop :=
  wA.keyfiles = w.keyfiles ∧ wA.fetchNet = w.fetchNet ∧
  wA.pushNet = w.pushNet ∧ wA.mkdirOk = w.mkdirOk

/-- Invariant on the shadow slot for a source URL: either nothing is on disk
yet, or a repository whose single remote binding is the default remote pointing
at the source URL. -/
def shadowInv (w : World) (p u : String) : Prop :=
  diskLookup w p = none ∨
  ∃ b0 rs0, diskLookup w p =
    some (DiskEntry.repo { bare := b0, remotes := [originCfg u], refs := rs0 })

/-- Credential for the concrete source key file. -/
def kC : PublicKeys := { user := "git", keyMaterial := "KS", insecureHostKey := false }

/-- Credential for the concrete destination key file. -/
def kD : PublicKeys := { user := "git", keyMaterial := "KD", insecureHostKey := true }

/-- Configuration whose sync pair names a source repository that is not
configured (the destination is configured). -/
def cfgMissing : RepositoriesSyncConfiguration :=
  { shadowsLocationBasePath := "b", repositories := [dstAccess], syncOptions := [soC] }

/-- World like wFresh but where both transport endpoints report the
already-up-to-date sentinel. -/
def wFreshUp : World :=
  { wFresh with
    fetchNet := fun _ => FetchRes.alreadyUpToDate,
    pushNet := fun _ => PushRes.alreadyUpToDate }

/-- World whose shadow slot holds something PlainOpen fails on with an error
other than ErrRepositoryNotExists. -/
def wCorrupt : World := { wUp with disk := [(pathC, DiskEntry.corrupt)] }

/-- Truth value of a Go call having returned successfully. -/
def isOk {α : Type} : Res α → Bool
  | Res.ok _ => true
  | _ => false

/-- The conversion the orchestrator applies to the Init/Update step result
before the push: a successful repository is passed along, anything else leaves
the nil pointer. -/
def resToOption {α : Type} : Res α → Option α
  | Res.ok a => some a
  | _ => none

/-! ## Known-answer tests for the hash embedding -/

/-- Known-answer test: the embedding computes the standard SHA-256 digest of the empty string. -/
theorem sha256Hex_empty_vector :
    sha256Hex "" = "e3b0c44298fc1c149afbf4c8996fb92427ae41e4649b934ca495991b7852b855" := by
  decide

/-- Known-answer test: the embedding computes the standard SHA-256 digest of "a". -/
theorem sha256Hex_a_vector :
    sha256Hex "a" = "ca978112ca1bbdcafac231b39a23dc4da786eff8147c4e72b9807785afee48bb" := by
  decide

/-! ## Basic lemmas about the world model -/

@[simp] theorem diskLookup_diskSet_self (w : World) (p : String) (e : DiskEntry) :
    diskLookup (diskSet w p e) p = some e := by
  simp [diskLookup, diskSet, lookupEntry]

@[simp] theorem diskSet_keyfiles (w : World) (p : String) (e : DiskEntry) :
    (diskSet w p e).keyfiles = w.keyfiles := rfl

@[simp] theorem diskSet_fetchNet (w : World) (p : String) (e : DiskEntry) :
    (diskSet w p e).fetchNet = w.fetchNet := rfl

@[simp] theorem diskSet_pushNet (w : World) (p : String) (e : DiskEntry) :
    (diskSet w p e).pushNet = w.pushNet := rfl

@[simp] theorem diskSet_mkdirOk (w : World) (p : String) (e : DiskEntry) :
    (diskSet w p e).mkdirOk = w.mkdirOk := rfl

theorem sameOracles_refl (w : World) : sameOracles w w := ⟨rfl, rfl, rfl, rfl⟩

/-! ## Forward evaluation lemmas for the program functions -/

theorem createDir_fwd (w : World) (u b : String)
    (hmk : w.mkdirOk (shadowPath b u) = true) :
    repositoryShadowCreateDir w u b =
      (Res.ok (shadowPath b u), w, [Event.mkdirAll (shadowPath b u) 644]) := by
  simp only [repositoryShadowCreateDir, shadowPath] at hmk ⊢
  simp [hmk]

theorem sshKeyRead_fwd (w : World) (f pw : String) (skip : Bool) (m : String)
    (hk : w.keyfiles f pw = some m) :
    repositorySshKeyRead w f pw skip =
      (Res.ok { user := "git", keyMaterial := m, insecureHostKey := skip },
       [Event.readKey f]) := by
  cases skip <;> simp [repositorySshKeyRead, hk]

theorem checkInit_none (w : World) (p : String) (h : diskLookup w p = none) :
    repositoryShadowCheckInit w p = Res.ok none := by
  simp [repositoryShadowCheckInit, plainOpen, h]

theorem checkInit_some (w : World) (p : String) (d : DiskRepo)
    (h : diskLookup w p = some (DiskEntry.repo d)) :
    repositoryShadowCheckInit w p = Res.ok (some { path := p }) := by
  simp [repositoryShadowCheckInit, plainOpen, h]

theorem checkInit_corrupt (w : World) (p : String)
    (h : diskLookup w p = some DiskEntry.corrupt) :
    repositoryShadowCheckInit w p = Res.err (GitError.openFailure p) := by
  simp [repositoryShadowCheckInit, plainOpen, h]

theorem ensure_fwd_absent (w : World) (p u : String) (k : PublicKeys)
    (h : diskLookup w p = none) :
    ensureUpToDate w p u k = repositoryShadowInit w p u k := by
  simp [ensureUpToDate, checkInit_none w p h]

theorem ensure_fwd_present (w : World) (p u : String) (k : PublicKeys) (d : DiskRepo)
    (h : diskLookup w p = some (DiskEntry.repo d)) :
    ensureUpToDate w p u k = repositoryShadowUpdate w (some { path := p }) p k := by
  simp [ensureUpToDate, checkInit_some w p d h]

theorem init_fwd_updated (w : World) (p u : String) (k : PublicKeys)
    (rs : List (String × Nat))
    (h1 : diskLookup w p = none) (h2 : w.fetchNet u = FetchRes.updated rs) :
    ∃ wA, repositoryShadowInit w p u k = (Res.ok { path := p }, wA, [Event.fetch u]) ∧
      diskLookup wA p =
        some (DiskEntry.repo { bare := true, remotes := [originCfg u], refs := rs }) ∧
      sameOracles wA w := by
  refine ⟨diskSet (diskSet (diskSet w p
      (DiskEntry.repo { bare := true, remotes := [], refs := [] })) p
      (DiskEntry.repo { bare := true, remotes := [originCfg u], refs := [] })) p
      (DiskEntry.repo { bare := true, remotes := [originCfg u], refs := rs }),
    ?_, by simp, ⟨rfl, rfl, rfl, rfl⟩⟩
  simp [repositoryShadowInit, plainInit, createRemote, remoteFetch, findRemote,
    originCfg, h1, h2]

theorem init_fwd_upToDate (w : World) (p u : String) (k : PublicKeys)
    (h1 : diskLookup w p = none) (h2 : w.fetchNet u = FetchRes.alreadyUpToDate) :
    ∃ wA, repositoryShadowInit w p u k = (Res.ok { path := p }, wA, [Event.fetch u]) ∧
      diskLookup wA p =
        some (DiskEntry.repo { bare := true, remotes := [originCfg u], refs := [] }) ∧
      sameOracles wA w := by
  refine ⟨diskSet (diskSet w p
      (DiskEntry.repo { bare := true, remotes := [], refs := [] })) p
      (DiskEntry.repo { bare := true, remotes := [originCfg u], refs := [] }),
    ?_, by simp, ⟨rfl, rfl, rfl, rfl⟩⟩
  simp [repositoryShadowInit, plainInit, createRemote, remoteFetch, findRemote,
    originCfg, h1, h2]

theorem update_fwd_updated (w : World) (p u : String) (r0 : Option GitRepository)
    (k : PublicKeys) (b0 : Bool) (rs0 rs : List (String × Nat))
    (h1 : diskLookup w p =
      some (DiskEntry.repo { bare := b0, remotes := [originCfg u], refs := rs0 }))
    (h2 : w.fetchNet u = FetchRes.updated rs) :
    ∃ wA, repositoryShadowUpdate w r0 p k = (Res.ok { path := p }, wA, [Event.fetch u]) ∧
      diskLookup wA p =
        some (DiskEntry.repo { bare := b0, remotes := [originCfg u], refs := rs }) ∧
      sameOracles wA w := by
  refine ⟨diskSet w p (DiskEntry.repo { bare := b0, remotes := [originCfg u], refs := rs }),
    ?_, by simp, ⟨rfl, rfl, rfl, rfl⟩⟩
  simp [repositoryShadowUpdate, plainOpen, repoFetch, remoteFetch, findRemote,
    originCfg, h1, h2]

theorem update_fwd_upToDate (w : World) (p u : String) (r0 : Option GitRepository)
    (k : PublicKeys) (b0 : Bool) (rs0 : List (String × Nat))
    (h1 : diskLookup w p =
      some (DiskEntry.repo { bare := b0, remotes := [originCfg u], refs := rs0 }))
    (h2 : w.fetchNet u = FetchRes.alreadyUpToDate) :
    repositoryShadowUpdate w r0 p k = (Res.ok { path := p }, w, [Event.fetch u]) := by
  simp [repositoryShadowUpdate, plainOpen, repoFetch, remoteFetch, findRemote,
    originCfg, h1, h2]

theorem push_fwd_ok (w : World) (p du : String) (kd : PublicKeys) (d : DiskRepo)
    (c : RemoteCfg)
    (h1 : diskLookup w p = some (DiskEntry.repo d))
    (h2 : findRemote d.remotes defaultRemoteName = some c)
    (h3 : w.pushNet du = PushRes.done ∨ w.pushNet du = PushRes.alreadyUpToDate) :
    repositoryShadowPushToNewOrigin w (some { path := p }) du kd =
      (Res.ok (), w, [Event.push du]) := by
  rcases h3 with h3 | h3 <;>
    simp [repositoryShadowPushToNewOrigin, repoRemote, remotePush, h1, h2, h3]

theorem push_no_panic (w : World) (p du : String) (kd : PublicKeys) (d : DiskRepo)
    (c : RemoteCfg)
    (h1 : diskLookup w p = some (DiskEntry.repo d))
    (h2 : findRemote d.remotes defaultRemoteName = some c) :
    (repositoryShadowPushToNewOrigin w (some { path := p }) du kd).1 ≠ Res.panic := by
  cases h3 : w.pushNet du <;>
    simp [repositoryShadowPushToNewOrigin, repoRemote, remotePush, h1, h2, h3]

/-- Forward evaluation of a whole successful sync run: with resolvable names,
readable key files, a writable shadow base, a shadow slot satisfying the
invariant and non-failing transport outcomes, the orchestrator succeeds, emits
exactly the mkdir/read-key/fetch/read-key/push event sequence, and leaves a
shadow repository whose sole stored remote binding is the default remote at the
source URL. -/
theorem sync_fwd (w : World) (rsc : RepositoriesSyncConfiguration)
    (so : RepositorySyncOption) (src dst : RepositoryAccess) (ms md : String)
    (hsrc : getRepositoryAccess rsc so.sourceName = some src)
    (hdst : getRepositoryAccess rsc so.destinationName = some dst)
    (hks : w.keyfiles src.repoPemFileName src.repoPemFilePassword = some ms)
    (hkd : w.keyfiles dst.repoPemFileName dst.repoPemFilePassword = some md)
    (hmk : w.mkdirOk (shadowPath rsc.shadowsLocationBasePath src.repoUrl) = true)
    (hinv : shadowInv w (shadowPath rsc.shadowsLocationBasePath src.repoUrl) src.repoUrl)
    (hfetch : w.fetchNet src.repoUrl = FetchRes.alreadyUpToDate ∨
      ∃ rs, w.fetchNet src.repoUrl = FetchRes.updated rs)
    (hpush : w.pushNet dst.repoUrl = PushRes.done ∨
      w.pushNet dst.repoUrl = PushRes.alreadyUpToDate) :
    ∃ wA dA,
      doRepositoriesSync w rsc so =
        (Res.ok (), wA,
         [Event.mkdirAll (shadowPath rsc.shadowsLocationBasePath src.repoUrl) 644,
          Event.readKey src.repoPemFileName, Event.fetch src.repoUrl,
          Event.readKey dst.repoPemFileName, Event.push dst.repoUrl]) ∧
      diskLookup wA (shadowPath rsc.shadowsLocationBasePath src.repoUrl) =
        some (DiskEntry.repo dA) ∧
      dA.remotes = [originCfg src.repoUrl] ∧
      sameOracles wA w := by
  have hcd := createDir_fwd w src.repoUrl rsc.shadowsLocationBasePath hmk
  have hksEq := sshKeyRead_fwd w src.repoPemFileName src.repoPemFilePassword
    src.repoSkipHostKeyValidation ms hks
  rcases hinv with hd | ⟨b0, rs0, hd⟩ <;> rcases hfetch with hf | ⟨rs, hf⟩
  · obtain ⟨wA, hstep, hlook, hsame⟩ := init_fwd_upToDate w
      (shadowPath rsc.shadowsLocationBasePath src.repoUrl) src.repoUrl
      { user := "git", keyMaterial := ms, insecureHostKey := src.repoSkipHostKeyValidation }
      hd hf
    have hkdEq := sshKeyRead_fwd wA dst.repoPemFileName dst.repoPemFilePassword
      dst.repoSkipHostKeyValidation md (by rw [hsame.1]; exact hkd)
    have hpushEq := push_fwd_ok wA (shadowPath rsc.shadowsLocationBasePath src.repoUrl)
      dst.repoUrl
      { user := "git", keyMaterial := md, insecureHostKey := dst.repoSkipHostKeyValidation }
      _ (originCfg src.repoUrl) hlook (by simp [findRemote, originCfg])
      (by rw [hsame.2.2.1]; exact hpush)
    refine ⟨wA, _, ?_, hlook, rfl, hsame⟩
    simp [doRepositoriesSync, hsrc, hdst, hcd, hksEq, checkInit_none _ _ hd, hstep,
      hkdEq, hpushEq]
  · obtain ⟨wA, hstep, hlook, hsame⟩ := init_fwd_updated w
      (shadowPath rsc.shadowsLocationBasePath src.repoUrl) src.repoUrl
      { user := "git", keyMaterial := ms, insecureHostKey := src.repoSkipHostKeyValidation }
      rs hd hf
    have hkdEq := sshKeyRead_fwd wA dst.repoPemFileName dst.repoPemFilePassword
      dst.repoSkipHostKeyValidation md (by rw [hsame.1]; exact hkd)
    have hpushEq := push_fwd_ok wA (shadowPath rsc.shadowsLocationBasePath src.repoUrl)
      dst.repoUrl
      { user := "git", keyMaterial := md, insecureHostKey := dst.repoSkipHostKeyValidation }
      _ (originCfg src.repoUrl) hlook (by simp [findRemote, originCfg])
      (by rw [hsame.2.2.1]; exact hpush)
    refine ⟨wA, _, ?_, hlook, rfl, hsame⟩
    simp [doRepositoriesSync, hsrc, hdst, hcd, hksEq, checkInit_none _ _ hd, hstep,
      hkdEq, hpushEq]
  · have hstep := update_fwd_upToDate w
      (shadowPath rsc.shadowsLocationBasePath src.repoUrl) src.repoUrl
      (some { path := shadowPath rsc.shadowsLocationBasePath src.repoUrl })
      { user := "git", keyMaterial := ms, insecureHostKey := src.repoSkipHostKeyValidation }
      b0 rs0 hd hf
    have hkdEq := sshKeyRead_fwd w dst.repoPemFileName dst.repoPemFilePassword
      dst.repoSkipHostKeyValidation md hkd
    have hpushEq := push_fwd_ok w (shadowPath rsc.shadowsLocationBasePath src.repoUrl)
      dst.repoUrl
      { user := "git", keyMaterial := md, insecureHostKey := dst.repoSkipHostKeyValidation }
      _ (originCfg src.repoUrl) hd (by simp [findRemote, originCfg]) hpush
    refine ⟨w, _, ?_, hd, rfl, sameOracles_refl w⟩
    simp [doRepositoriesSync, hsrc, hdst, hcd, hksEq, checkInit_some _ _ _ hd, hstep,
      hkdEq, hpushEq]
  · obtain ⟨wA, hstep, hlook, hsame⟩ := update_fwd_updated w
      (shadowPath rsc.shadowsLocationBasePath src.repoUrl) src.repoUrl
      (some { path := shadowPath rsc.shadowsLocationBasePath src.repoUrl })
      { user := "git", keyMaterial := ms, insecureHostKey := src.repoSkipHostKeyValidation }
      b0 rs0 rs hd hf
    have hkdEq := sshKeyRead_fwd wA dst.repoPemFileName dst.repoPemFilePassword
      dst.repoSkipHostKeyValidation md (by rw [hsame.1]; exact hkd)
    have hpushEq := push_fwd_ok wA (shadowPath rsc.shadowsLocationBasePath src.repoUrl)
      dst.repoUrl
      { user := "git", keyMaterial := md, insecureHostKey := dst.repoSkipHostKeyValidation }
      _ (originCfg src.repoUrl) hlook (by simp [findRemote, originCfg])
      (by rw [hsame.2.2.1]; exact hpush)
    refine ⟨wA, _, ?_, hlook, rfl, hsame⟩
    simp [doRepositoriesSync, hsrc, hdst, hcd, hksEq, checkInit_some _ _ _ hd, hstep,
      hkdEq, hpushEq]

/-! ## Claims -/

/-- Claim C1, evidence of the code bug: with a sync pair whose source name
matches no configured repository, the lookup misses, and the sync run
dereferences the nil descriptor and panics with an empty trace — it does not
fail with a configuration error before any further step, and it does crash. -/
theorem missing_lookup_causes_panic :
    getRepositoryAccess cfgMissing soC.sourceName = none ∧
    (doRepositoriesSync wFresh cfgMissing soC).1 = Res.panic ∧
    (doRepositoriesSync wFresh cfgMissing soC).2.2 = [] := by
  decide

/-- Claim C2, evidence of the code bug: in a world where the shadow is absent
and every fetch fails with a transport error, the Init step of the sync run
returns that transport error, yet the orchestrator does not abort with it:
destination credential resolution still executes (its read-key event is in the
trace) and the push step is still invoked, where the nil repository makes the
run panic instead of returning the step error. -/
theorem step_error_dropped_and_sync_continues :
    (repositoryShadowInit wDown pathC "us" kC).1 = Res.err (GitError.transport "down") ∧
    (doRepositoriesSync wDown cfgC soC).1 ≠ Res.err (GitError.transport "down") ∧
    Event.readKey "kd.pem" ∈ (doRepositoriesSync wDown cfgC soC).2.2 ∧
    (doRepositoriesSync wDown cfgC soC).1 = Res.panic := by
  decide

/-- Claim C4: an already-up-to-date outcome is success for the fetch of the
Init transition, the fetch of the Update transition, and the push. -/
theorem alreadyUpToDate_is_success (w1 w2 : World) (p u du : String) (k kd : PublicKeys)
    (d : DiskRepo) (c : RemoteCfg)
    (h1 : diskLookup w1 p = none)
    (h2 : w1.fetchNet u = FetchRes.alreadyUpToDate)
    (h3 : diskLookup w2 p = some (DiskEntry.repo d))
    (h4 : findRemote d.remotes defaultRemoteName = some c)
    (h5 : w2.fetchNet (c.urls.headD "") = FetchRes.alreadyUpToDate)
    (h6 : w2.pushNet du = PushRes.alreadyUpToDate) :
    (repositoryShadowInit w1 p u k).1 = Res.ok { path := p } ∧
    (repositoryShadowUpdate w2 (some { path := p }) p k).1 = Res.ok { path := p } ∧
    (repositoryShadowPushToNewOrigin w2 (some { path := p }) du kd).1 = Res.ok () := by
  refine ⟨?_, ?_, ?_⟩
  · obtain ⟨wA, hstep, _, _⟩ := init_fwd_upToDate w1 p u k h1 h2
    simp [hstep]
  · rw [List.headD_eq_head?] at h5
    simp [repositoryShadowUpdate, plainOpen, repoFetch, remoteFetch, h3, h4, h5]
  · simp [repositoryShadowPushToNewOrigin, repoRemote, remotePush, h3, h4, h6]

/-- Witness for C4 at concrete worlds: a fresh shadow whose source fetch is
already up to date, and an existing shadow whose fetch and push are both
already up to date. -/
theorem alreadyUpToDate_is_success_witness :
    (repositoryShadowInit wFreshUp pathC "us" kC).1 = Res.ok { path := pathC } ∧
    (repositoryShadowUpdate wUp (some { path := pathC }) pathC kC).1 =
      Res.ok { path := pathC } ∧
    (repositoryShadowPushToNewOrigin wUp (some { path := pathC }) "ud" kD).1 = Res.ok () :=
  alreadyUpToDate_is_success wFreshUp wUp pathC "us" "ud" kC kD repoC (originCfg "us")
    (by decide) (by decide) (by decide) (by decide) (by decide) (by decide)

/-- Claim C5: opening a path with no valid repository yields the
not-initialized signal, which is not an error but selects the Init transition;
an existing repository selects Update; any other open failure is fatal and
propagated by the orchestrator. -/
theorem not_initialized_triggers_init (w1 w2 w3 : World) (p u : String)
    (k : PublicKeys) (d : DiskRepo)
    (h1 : diskLookup w1 p = none)
    (h2 : diskLookup w2 p = some (DiskEntry.repo d))
    (h3 : diskLookup w3 p = some DiskEntry.corrupt) :
    repositoryShadowCheckInit w1 p = Res.ok none ∧
    ensureUpToDate w1 p u k = repositoryShadowInit w1 p u k ∧
    repositoryShadowCheckInit w2 p = Res.ok (some { path := p }) ∧
    ensureUpToDate w2 p u k = repositoryShadowUpdate w2 (some { path := p }) p k ∧
    repositoryShadowCheckInit w3 p = Res.err (GitError.openFailure p) ∧
    (ensureUpToDate w3 p u k).1 = Res.err (GitError.openFailure p) := by
  refine ⟨checkInit_none w1 p h1, ensure_fwd_absent w1 p u k h1,
    checkInit_some w2 p d h2, ensure_fwd_present w2 p u k d h2,
    checkInit_corrupt w3 p h3, ?_⟩
  simp [ensureUpToDate, checkInit_corrupt w3 p h3]

/-- Witness for C5: an absent shadow, a present shadow, and a corrupt entry. -/
theorem not_initialized_triggers_init_witness :
    repositoryShadowCheckInit wFresh pathC = Res.ok none ∧
    repositoryShadowCheckInit wCorrupt pathC = Res.err (GitError.openFailure pathC) ∧
    (ensureUpToDate wCorrupt pathC "us" kC).1 = Res.err (GitError.openFailure pathC) := by
  have h := not_initialized_triggers_init wFresh wUp wCorrupt pathC "us" kC repoC
    (by decide) (by decide) (by decide)
  exact ⟨h.1, h.2.2.2.2.1, h.2.2.2.2.2⟩

/-- Claim C6: the shadow-directory creation passes the decimal integer literal
644 as the permission argument of the recursive directory creation; this value
differs from the octal mode 0644 and contains none of the execute bits 0o111 a
directory needs. -/
theorem mkdir_perm_decimal_644 (w : World) (u b : String) :
    (repositoryShadowCreateDir w u b).2.2 = [Event.mkdirAll (shadowPath b u) 644] ∧
    (644 : Nat) ≠ 0o644 ∧ (644 : Nat) &&& 0o111 = 0 := by
  refine ⟨?_, by decide, by decide⟩
  by_cases h : w.mkdirOk (filepathJoin b (sha256Hex u)) <;>
    simp [repositoryShadowCreateDir, shadowPath, h]

/-- Claim C7: every successfully derived shadow path is the base path joined
with the lowercase hex encoding of the SHA-256 digest of the exact URL string,
and the derivation is deterministic across calls and worlds. -/
theorem shadow_path_deterministic (w1 w2 : World) (u b p1 p2 : String)
    (h1 : (repositoryShadowCreateDir w1 u b).1 = Res.ok p1)
    (h2 : (repositoryShadowCreateDir w2 u b).1 = Res.ok p2) :
    p1 = filepathJoin b (hexEncodeToString (sha256Bytes (strBytes u))) ∧ p1 = p2 := by
  by_cases hm1 : w1.mkdirOk (filepathJoin b (sha256Hex u)) <;>
    by_cases hm2 : w2.mkdirOk (filepathJoin b (sha256Hex u)) <;>
    simp [repositoryShadowCreateDir, hm1, hm2] at h1 h2 <;>
    simp [← h1, ← h2, sha256Hex]

/-- Witness for C7, doubling as a known-answer test: the shadow path of the
URL "us" under base "b" is the hex SHA-256 digest of "us" joined under "b". -/
theorem shadow_path_deterministic_witness :
    "b/79adb2a2fce5c6ba215fe5f27f532d4e7edbac4b6a5e09e1ef3a08084a904621" =
      filepathJoin "b" (hexEncodeToString (sha256Bytes (strBytes "us"))) ∧
    "b/79adb2a2fce5c6ba215fe5f27f532d4e7edbac4b6a5e09e1ef3a08084a904621" =
      "b/79adb2a2fce5c6ba215fe5f27f532d4e7edbac4b6a5e09e1ef3a08084a904621" :=
  shadow_path_deterministic wFresh wUp "us" "b"
    "b/79adb2a2fce5c6ba215fe5f27f532d4e7edbac4b6a5e09e1ef3a08084a904621"
    "b/79adb2a2fce5c6ba215fe5f27f532d4e7edbac4b6a5e09e1ef3a08084a904621"
    (by decide) (by decide)

/-- Claim C3, counterexample: a fully successful sync of the concrete pair
(source URL "us", destination URL "ud") ends with the shadow holding exactly
one stored remote binding, but that binding's URL list is ["us"] — the source
URL, not the destination URL. -/
theorem stored_remote_keeps_source_url :
    (doRepositoriesSync wFresh cfgC soC).1 = Res.ok () ∧
    shadowRemotes (doRepositoriesSync wFresh cfgC soC).2.1 pathC =
      some [{ name := "origin", urls := ["us"], fetchSpecs := ["+refs/*:refs/*"] }] ∧
    (["us"] : List String) ≠ ["ud"] := by
  decide

/-- Claim C3 (amended): after every successful sync the shadow has exactly one
stored remote binding, the default remote, and its stored URL list is exactly
the source URL; the destination URL replaces (never extends) the URL list only
in the in-memory remote used for the push, whose network contact — the final
trace event — goes to the destination URL. -/
theorem remote_rewire_amended (w : World) (rsc : RepositoriesSyncConfiguration)
    (so : RepositorySyncOption) (src dst : RepositoryAccess) (ms md : String)
    (hsrc : getRepositoryAccess rsc so.sourceName = some src)
    (hdst : getRepositoryAccess rsc so.destinationName = some dst)
    (hks : w.keyfiles src.repoPemFileName src.repoPemFilePassword = some ms)
    (hkd : w.keyfiles dst.repoPemFileName dst.repoPemFilePassword = some md)
    (hmk : w.mkdirOk (shadowPath rsc.shadowsLocationBasePath src.repoUrl) = true)
    (hinv : shadowInv w (shadowPath rsc.shadowsLocationBasePath src.repoUrl) src.repoUrl)
    (hfetch : w.fetchNet src.repoUrl = FetchRes.alreadyUpToDate ∨
      ∃ rs, w.fetchNet src.repoUrl = FetchRes.updated rs)
    (hpush : w.pushNet dst.repoUrl = PushRes.done ∨
      w.pushNet dst.repoUrl = PushRes.alreadyUpToDate) :
    (doRepositoriesSync w rsc so).1 = Res.ok () ∧
    shadowRemotes (doRepositoriesSync w rsc so).2.1
      (shadowPath rsc.shadowsLocationBasePath src.repoUrl) = some [originCfg src.repoUrl] ∧
    (originCfg src.repoUrl).urls = [src.repoUrl] ∧
    (doRepositoriesSync w rsc so).2.2.getLast? = some (Event.push dst.repoUrl) := by
  obtain ⟨wA, dA, heq, hlook, hrem, hsame⟩ :=
    sync_fwd w rsc so src dst ms md hsrc hdst hks hkd hmk hinv hfetch hpush
  rw [heq]
  refine ⟨rfl, ?_, rfl, rfl⟩
  simp [shadowRemotes, hlook, hrem]

/-- Witness for the amended C3 at the concrete fresh-world scenario. -/
theorem remote_rewire_amended_witness :
    (doRepositoriesSync wFresh cfgC soC).1 = Res.ok () ∧
    shadowRemotes (doRepositoriesSync wFresh cfgC soC).2.1 (shadowPath "b" "us") =
      some [originCfg "us"] ∧
    (originCfg "us").urls = ["us"] ∧
    (doRepositoriesSync wFresh cfgC soC).2.2.getLast? = some (Event.push "ud") :=
  remote_rewire_amended wFresh cfgC soC srcAccess dstAccess "KS" "KD"
    (by decide) (by decide) (by decide) (by decide) (by decide)
    (Or.inl (by decide)) (Or.inr ⟨[("refs/heads/main", 1)], by decide⟩)
    (Or.inl (by decide))

/-- Claim C8: the initialize-or-update operation is idempotent — under the
shadow-slot invariant and a non-failing, unchanged upstream, two consecutive
runs both succeed and the second leaves the shadow ref set exactly as the
first left it. -/
theorem ensureUpToDate_idempotent (w : World) (p u : String) (k : PublicKeys)
    (hinv : shadowInv w p u)
    (hfetch : w.fetchNet u = FetchRes.alreadyUpToDate ∨
      ∃ rs, w.fetchNet u = FetchRes.updated rs) :
    isOk (ensureUpToDate w p u k).1 = true ∧
    isOk (ensureUpToDate (ensureUpToDate w p u k).2.1 p u k).1 = true ∧
    shadowRefs (ensureUpToDate (ensureUpToDate w p u k).2.1 p u k).2.1 p =
      shadowRefs (ensureUpToDate w p u k).2.1 p := by
  rcases hinv with hd | ⟨b0, rs0, hd⟩ <;> rcases hfetch with hf | ⟨rs, hf⟩
  · obtain ⟨wA, hstep, hlook, hsame⟩ := init_fwd_upToDate w p u k hd hf
    have e1 : ensureUpToDate w p u k = (Res.ok { path := p }, wA, [Event.fetch u]) := by
      rw [ensure_fwd_absent w p u k hd]; exact hstep
    have e2 : ensureUpToDate wA p u k = (Res.ok { path := p }, wA, [Event.fetch u]) := by
      rw [ensure_fwd_present wA p u k _ hlook]
      exact update_fwd_upToDate wA p u (some { path := p }) k true [] hlook
        (by rw [hsame.2.1]; exact hf)
    rw [e1]
    simp [e2, isOk]
  · obtain ⟨wA, hstep, hlook, hsame⟩ := init_fwd_updated w p u k rs hd hf
    have e1 : ensureUpToDate w p u k = (Res.ok { path := p }, wA, [Event.fetch u]) := by
      rw [ensure_fwd_absent w p u k hd]; exact hstep
    obtain ⟨wB, hstep2, hlook2, hsame2⟩ := update_fwd_updated wA p u
      (some { path := p }) k true rs rs hlook (by rw [hsame.2.1]; exact hf)
    have e2 : ensureUpToDate wA p u k = (Res.ok { path := p }, wB, [Event.fetch u]) := by
      rw [ensure_fwd_present wA p u k _ hlook]; exact hstep2
    rw [e1]
    simp [e2, isOk, shadowRefs, hlook, hlook2]
  · have e1 : ensureUpToDate w p u k = (Res.ok { path := p }, w, [Event.fetch u]) := by
      rw [ensure_fwd_present w p u k _ hd]
      exact update_fwd_upToDate w p u (some { path := p }) k b0 rs0 hd hf
    rw [e1]
    simp [e1, isOk]
  · obtain ⟨wA, hstep, hlook, hsame⟩ := update_fwd_updated w p u (some { path := p }) k
      b0 rs0 rs hd hf
    have e1 : ensureUpToDate w p u k = (Res.ok { path := p }, wA, [Event.fetch u]) := by
      rw [ensure_fwd_present w p u k _ hd]; exact hstep
    obtain ⟨wB, hstep2, hlook2, hsame2⟩ := update_fwd_updated wA p u
      (some { path := p }) k b0 rs rs hlook (by rw [hsame.2.1]; exact hf)
    have e2 : ensureUpToDate wA p u k = (Res.ok { path := p }, wB, [Event.fetch u]) := by
      rw [ensure_fwd_present wA p u k _ hlook]; exact hstep2
    rw [e1]
    simp [e2, isOk, shadowRefs, hlook, hlook2]

/-- Witness for C8 at the concrete fresh-world scenario. -/
theorem ensureUpToDate_idempotent_witness :
    isOk (ensureUpToDate wFresh pathC "us" kC).1 = true ∧
    isOk (ensureUpToDate (ensureUpToDate wFresh pathC "us" kC).2.1 pathC "us" kC).1 = true ∧
    shadowRefs (ensureUpToDate (ensureUpToDate wFresh pathC "us" kC).2.1 pathC "us" kC).2.1
      pathC = shadowRefs (ensureUpToDate wFresh pathC "us" kC).2.1 pathC :=
  ensureUpToDate_idempotent wFresh pathC "us" kC (Or.inl (by decide))
    (Or.inr ⟨[("refs/heads/main", 1)], by decide⟩)

/-- Claim C9, counterexample: with resolvable names but a failing source fetch,
the Init transition fails, so the repository value the orchestrator converts
and passes to the push is nil; the push dereferences it and the whole run
panics. -/
theorem nil_repository_reaches_push :
    getRepositoryAccess cfgC soC.sourceName = some srcAccess ∧
    getRepositoryAccess cfgC soC.destinationName = some dstAccess ∧
    resToOption (repositoryShadowInit wDown pathC "us" kC).1 = none ∧
    (repositoryShadowPushToNewOrigin wDown none "ud" kD).1 = Res.panic ∧
    (doRepositoriesSync wDown cfgC soC).1 = Res.panic := by
  decide

/-- Claim C9 (amended): whenever the Init-or-Update step succeeds, the
repository it hands to the push is non-nil, its default remote exists in the
store, and the push never panics; the unamended claim fails because a failed
step hands the push a nil repository. -/
theorem push_safe_after_successful_step (w : World) (p u du : String) (k kd : PublicKeys)
    (hinv : shadowInv w p u)
    (hfetch : w.fetchNet u = FetchRes.alreadyUpToDate ∨
      ∃ rs, w.fetchNet u = FetchRes.updated rs) :
    isOk (ensureUpToDate w p u k).1 = true ∧
    resToOption (ensureUpToDate w p u k).1 = some { path := p } ∧
    (repositoryShadowPushToNewOrigin (ensureUpToDate w p u k).2.1
      (resToOption (ensureUpToDate w p u k).1) du kd).1 ≠ Res.panic := by
  rcases hinv with hd | ⟨b0, rs0, hd⟩ <;> rcases hfetch with hf | ⟨rs, hf⟩
  · obtain ⟨wA, hstep, hlook, hsame⟩ := init_fwd_upToDate w p u k hd hf
    have e1 : ensureUpToDate w p u k = (Res.ok { path := p }, wA, [Event.fetch u]) := by
      rw [ensure_fwd_absent w p u k hd]; exact hstep
    rw [e1]
    exact ⟨rfl, rfl,
      push_no_panic wA p du kd _ (originCfg u) hlook (by simp [findRemote, originCfg])⟩
  · obtain ⟨wA, hstep, hlook, hsame⟩ := init_fwd_updated w p u k rs hd hf
    have e1 : ensureUpToDate w p u k = (Res.ok { path := p }, wA, [Event.fetch u]) := by
      rw [ensure_fwd_absent w p u k hd]; exact hstep
    rw [e1]
    exact ⟨rfl, rfl,
      push_no_panic wA p du kd _ (originCfg u) hlook (by simp [findRemote, originCfg])⟩
  · have e1 : ensureUpToDate w p u k = (Res.ok { path := p }, w, [Event.fetch u]) := by
      rw [ensure_fwd_present w p u k _ hd]
      exact update_fwd_upToDate w p u (some { path := p }) k b0 rs0 hd hf
    rw [e1]
    exact ⟨rfl, rfl,
      push_no_panic w p du kd _ (originCfg u) hd (by simp [findRemote, originCfg])⟩
  · obtain ⟨wA, hstep, hlook, hsame⟩ := update_fwd_updated w p u (some { path := p }) k
      b0 rs0 rs hd hf
    have e1 : ensureUpToDate w p u k = (Res.ok { path := p }, wA, [Event.fetch u]) := by
      rw [ensure_fwd_present w p u k _ hd]; exact hstep
    rw [e1]
    exact ⟨rfl, rfl,
      push_no_panic wA p du kd _ (originCfg u) hlook (by simp [findRemote, originCfg])⟩

/-- Witness for the amended C9 at the concrete fresh-world scenario. -/
theorem push_safe_after_successful_step_witness :
    isOk (ensureUpToDate wFresh pathC "us" kC).1 = true ∧
    resToOption (ensureUpToDate wFresh pathC "us" kC).1 = some { path := pathC } ∧
    (repositoryShadowPushToNewOrigin (ensureUpToDate wFresh pathC "us" kC).2.1
      (resToOption (ensureUpToDate wFresh pathC "us" kC).1) "ud" kD).1 ≠ Res.panic :=
  push_safe_after_successful_step wFresh pathC "us" "ud" kC kD (Or.inl (by decide))
    (Or.inr ⟨[("refs/heads/main", 1)], by decide⟩)

/-- Claim C10: pushing never modifies the world — in particular the
destination-URL rewrite lives only in the in-memory remote and is never written
back to the shadow's stored configuration — and after a successful sync the
stored remote still names the source URL, so a subsequent update of the same
shadow fetches from the source URL and never from the destination URL of the
previous push. -/
theorem push_rewrite_not_persisted (w : World) (rsc : RepositoriesSyncConfiguration)
    (so : RepositorySyncOption) (src dst : RepositoryAccess) (ms md : String)
    (k2 : PublicKeys)
    (hsrc : getRepositoryAccess rsc so.sourceName = some src)
    (hdst : getRepositoryAccess rsc so.destinationName = some dst)
    (hks : w.keyfiles src.repoPemFileName src.repoPemFilePassword = some ms)
    (hkd : w.keyfiles dst.repoPemFileName dst.repoPemFilePassword = some md)
    (hmk : w.mkdirOk (shadowPath rsc.shadowsLocationBasePath src.repoUrl) = true)
    (hinv : shadowInv w (shadowPath rsc.shadowsLocationBasePath src.repoUrl) src.repoUrl)
    (hfetch : w.fetchNet src.repoUrl = FetchRes.alreadyUpToDate ∨
      ∃ rs, w.fetchNet src.repoUrl = FetchRes.updated rs)
    (hpush : w.pushNet dst.repoUrl = PushRes.done ∨
      w.pushNet dst.repoUrl = PushRes.alreadyUpToDate)
    (hne : src.repoUrl ≠ dst.repoUrl) :
    (∀ (w0 : World) (r : Option GitRepository) (du : String) (kd : PublicKeys),
      (repositoryShadowPushToNewOrigin w0 r du kd).2.1 = w0) ∧
    shadowRemotes (doRepositoriesSync w rsc so).2.1
      (shadowPath rsc.shadowsLocationBasePath src.repoUrl) =
      some [originCfg src.repoUrl] ∧
    (repositoryShadowUpdate (doRepositoriesSync w rsc so).2.1
      (some { path := shadowPath rsc.shadowsLocationBasePath src.repoUrl })
      (shadowPath rsc.shadowsLocationBasePath src.repoUrl) k2).2.2 =
      [Event.fetch src.repoUrl] ∧
    Event.fetch dst.repoUrl ∉
      (repositoryShadowUpdate (doRepositoriesSync w rsc so).2.1
        (some { path := shadowPath rsc.shadowsLocationBasePath src.repoUrl })
        (shadowPath rsc.shadowsLocationBasePath src.repoUrl) k2).2.2 := by
  have hframe : ∀ (w0 : World) (r : Option GitRepository) (du : String) (kd : PublicKeys),
      (repositoryShadowPushToNewOrigin w0 r du kd).2.1 = w0 := by
    intro w0 r du kd
    cases r with
    | none => rfl
    | some r0 =>
      cases hq : repoRemote w0 r0 defaultRemoteName with
      | ok rem =>
        cases hp : w0.pushNet du <;>
          simp [repositoryShadowPushToNewOrigin, remotePush, hq, hp]
      | err e => cases e <;> simp [repositoryShadowPushToNewOrigin, hq]
      | panic => simp [repositoryShadowPushToNewOrigin, hq]
  obtain ⟨wA, dA, heq, hlook, hrem, hsame⟩ :=
    sync_fwd w rsc so src dst ms md hsrc hdst hks hkd hmk hinv hfetch hpush
  have hlook2 : diskLookup wA (shadowPath rsc.shadowsLocationBasePath src.repoUrl) =
      some (DiskEntry.repo
        { bare := dA.bare, remotes := [originCfg src.repoUrl], refs := dA.refs }) := by
    rw [← hrem]
    exact hlook
  have hupd : (repositoryShadowUpdate wA
      (some { path := shadowPath rsc.shadowsLocationBasePath src.repoUrl })
      (shadowPath rsc.shadowsLocationBasePath src.repoUrl) k2).2.2 =
      [Event.fetch src.repoUrl] := by
    rcases hfetch with hf | ⟨rs, hf⟩
    · rw [update_fwd_upToDate wA (shadowPath rsc.shadowsLocationBasePath src.repoUrl)
        src.repoUrl (some { path := shadowPath rsc.shadowsLocationBasePath src.repoUrl })
        k2 dA.bare dA.refs hlook2 (by rw [hsame.2.1]; exact hf)]
    · obtain ⟨wB, e2, _, _⟩ := update_fwd_updated wA
        (shadowPath rsc.shadowsLocationBasePath src.repoUrl) src.repoUrl
        (some { path := shadowPath rsc.shadowsLocationBasePath src.repoUrl })
        k2 dA.bare dA.refs rs hlook2 (by rw [hsame.2.1]; exact hf)
      rw [e2]
  refine ⟨hframe, ?_, ?_, ?_⟩
  · rw [heq]
    simp [shadowRemotes, hlook, hrem]
  · rw [heq]
    exact hupd
  · rw [heq]
    show Event.fetch dst.repoUrl ∉ (repositoryShadowUpdate wA
      (some { path := shadowPath rsc.shadowsLocationBasePath src.repoUrl })
      (shadowPath rsc.shadowsLocationBasePath src.repoUrl) k2).2.2
    rw [hupd]
    simp [Ne.symm hne]

/-- Witness for C10 at the concrete fresh-world scenario. -/
theorem push_rewrite_not_persisted_witness :
    shadowRemotes (doRepositoriesSync wFresh cfgC soC).2.1 (shadowPath "b" "us") =
      some [originCfg "us"] ∧
    (repositoryShadowUpdate (doRepositoriesSync wFresh cfgC soC).2.1
      (some { path := shadowPath "b" "us" }) (shadowPath "b" "us") kC).2.2 =
      [Event.fetch "us"] ∧
    Event.fetch "ud" ∉ (repositoryShadowUpdate (doRepositoriesSync wFresh cfgC soC).2.1
      (some { path := shadowPath "b" "us" }) (shadowPath "b" "us") kC).2.2 := by
  have h := push_rewrite_not_persisted wFresh cfgC soC srcAccess dstAccess "KS" "KD" kC
    (by decide) (by decide) (by decide) (by decide) (by decide)
    (Or.inl (by decide)) (Or.inr ⟨[("refs/heads/main", 1)], by decide⟩)
    (Or.inl (by decide)) (by decide)
  exact ⟨h.2.1, h.2.2.1, h.2.2.2⟩

end GitSync
